import Mathlib

/-!
Verification of the v0.dev MCP server core: the Generation Bridge
(`src/lib/streaming.ts`), the session metrics tracker
(`src/lib/performance.ts`), the component-generator tool contract
(`src/tools/component-generator.ts`), and the HTTP facade
(`src/http-server.ts`), shallowly embedded in Lean.
-/

namespace V0Mcp

/-! ## Generation Bridge (`src/lib/streaming.ts`) -/

/-- Opaque usage-statistics record returned by the provider (token counts);
the system never interprets it, so a single field suffices. -/
structure Usage where
  totalTokens : Nat
deriving DecidableEq, Repr

/-- The uniform result shape of `generateWithOptimalStreaming`
(`streaming.ts` lines 32-37 and 47-52). -/
structure GenerationResult where
  text : String
  usage : Usage
  streamed : Bool
  chunkCount : Nat
deriving DecidableEq, Repr

/-- The loop-local state of the streaming branch: the `fullText`
accumulator, the `chunks` array, and a count of how many times the
yield-to-scheduler hook (`await setImmediate`) has fired. -/
structure StreamState where
  fullText : String
  chunks : List String
  yields : Nat
deriving Repr

/-- One iteration of the `for await (const textPart of result.textStream)`
loop (`streaming.ts` lines 22-30): append to the accumulator, push onto
`chunks`, and fire the yield hook when `chunks.length % 100 === 0`. -/
def consumeFragment (s : StreamState) (textPart : String) : StreamState :=
  let chunks := s.chunks ++ [textPart]
  { fullText := s.fullText ++ textPart
    chunks := chunks
    yields := if chunks.length % 100 = 0 then s.yields + 1 else s.yields }

/-- The whole streaming loop over the emitted fragment sequence. -/
def consumeStream (fragments : List String) : StreamState :=
  fragments.foldl consumeFragment { fullText := "", chunks := [], yields := 0 }

/-- Result of the buffered (`generateText`) provider call. -/
structure BufferedResult where
  text : String
  usage : Usage
deriving DecidableEq, Repr

/-- The opaque text-generation provider. When streamed, it emits
`streamFragments` in order and then either ends normally
(`streamError = none`) or throws (`streamError = some msg`); its usage
statistic resolves to `streamUsage`. The buffered call either resolves
to a `BufferedResult` or rejects. -/
structure Provider where
  streamFragments : List String
  streamError : Option String
  streamUsage : Usage
  buffered : Except String BufferedResult

/-- `generateWithOptimalStreaming` (`streaming.ts` lines 4-54). The
prompt and `maxTokens` are forwarded to the opaque provider and do not
affect aggregation. A rejection anywhere (mid-stream or buffered)
propagates as `Except.error`, discarding any accumulated fragments. -/
def generateWithOptimalStreaming (provider : Provider) (_prompt : String)
    (_maxTokens : Int) (useStreaming : Bool) : Except String GenerationResult :=
  if useStreaming then
    match provider.streamError with
    | some e => Except.error e
    | none =>
      let st := consumeStream provider.streamFragments
      Except.ok { text := st.fullText, usage := provider.streamUsage,
                  streamed := true, chunkCount := st.chunks.length }
  else
    match provider.buffered with
    | Except.error e => Except.error e
    | Except.ok r =>
      Except.ok { text := r.text, usage := r.usage, streamed := false, chunkCount := 0 }

/-! ## Session metrics tracker (`src/lib/performance.ts`) -/

/-- A JavaScript number as it appears in `averageToolTime`: either an
exact value or one of the special values produced by division. -/
inductive JSNum where
  | num (q : ℚ)
  | posInf
  | negInf
  | nan
deriving DecidableEq, Repr

/-- JavaScript division `a / n` of a (millisecond) integer by an array
length. Division by zero follows JS semantics: `Infinity`, `-Infinity`
or `NaN`, never an exception. -/
def jsDiv (a : Int) (n : Nat) : JSNum :=
  if n = 0 then
    if 0 < a then JSNum.posInf
    else if a < 0 then JSNum.negInf
    else JSNum.nan
  else JSNum.num ((a : ℚ) / (n : ℚ))

/-- One entry of `performanceTracker.sessions`: `{ startTime, tools }`. -/
structure Session where
  startTime : Int
  tools : List String
deriving DecidableEq, Repr

/-- The `sessions` map, embedded as an association list with JS `Map`
semantics (`set` replaces in place or appends, `get` finds the entry). -/
abbrev Registry := List (String × Session)

/-- JS `Map.prototype.set`. -/
def setSession : Registry → String → Session → Registry
  | [], k, v => [(k, v)]
  | (k', v') :: rest, k, v =>
    if k' = k then (k, v) :: rest else (k', v') :: setSession rest k v

/-- JS `Map.prototype.get`. -/
def getSession : Registry → String → Option Session
  | [], _ => none
  | (k', v') :: rest, k => if k' = k then some v' else getSession rest k

/-- `performanceTracker.startSession` (`performance.ts` lines 5-10):
unconditionally (re)sets the entry, discarding any prior history. -/
def startSession (m : Registry) (sessionId : String) (now : Int) : Registry :=
  setSession m sessionId { startTime := now, tools := [] }

/-- `performanceTracker.trackTool` (`performance.ts` lines 12-17):
appends to the history if the session exists, else silently no-ops. -/
def trackTool (m : Registry) (sessionId : String) (toolName : String) : Registry :=
  match getSession m sessionId with
  | some s => setSession m sessionId { s with tools := s.tools ++ [toolName] }
  | none => m

/-- The record returned by `performanceTracker.getMetrics`. -/
structure Metrics where
  duration : Int
  toolsUsed : Nat
  tools : List String
  averageToolTime : JSNum
deriving DecidableEq, Repr

/-- `performanceTracker.getMetrics` (`performance.ts` lines 19-29).
The source calls `Date.now()` twice — once for `duration` (line 24)
and once inside `averageToolTime` (line 27) — so the two samples are
separate parameters `now1` and `now2`. -/
def getMetrics (m : Registry) (sessionId : String) (now1 now2 : Int) : Option Metrics :=
  match getSession m sessionId with
  | none => none
  | some s =>
    some { duration := now1 - s.startTime
           toolsUsed := s.tools.length
           tools := s.tools
           averageToolTime := jsDiv (now2 - s.startTime) s.tools.length }

/-! ## Component-generator tool contract (`src/tools/component-generator.ts`) -/

/-- The validated input of `componentGeneratorSchema`
(`component-generator.ts` lines 13-35), with defaults applied. The
`styling` field keeps its string representation; validation restricts
it to the four enum members. -/
structure ValidatedArgs where
  component_name : String
  theme : String
  props : List String
  styling : String
  stream : Bool
deriving DecidableEq, Repr

/-- A raw JSON-ish argument value as submitted by a caller. -/
inductive RawValue where
  | str (s : String)
  | boolV (b : Bool)
  | intV (n : Int)
  | strArr (xs : List String)
deriving DecidableEq, Repr

/-- A raw tool-invocation argument map. -/
abbrev RawInput := List (String × RawValue)

def lookupRaw (raw : RawInput) (key : String) : Option RawValue :=
  (raw.find? fun kv => kv.1 == key).map (·.2)

/-- `componentGeneratorSchema.parse`: zod object semantics. Required
string fields `component_name` and `theme`; `props`, `styling` and
`stream` optional with defaults `[]`, `"tailwind"`, `true`; `styling`
restricted to the four enum members; unknown keys (zod default strip
mode) are ignored, not rejected. -/
def parseComponentGeneratorInput (raw : RawInput) : Except String ValidatedArgs := do
  let component_name ←
    match lookupRaw raw "component_name" with
    | some (RawValue.str s) => Except.ok s
    | _ => Except.error "component_name: Required string"
  let theme ←
    match lookupRaw raw "theme" with
    | some (RawValue.str s) => Except.ok s
    | _ => Except.error "theme: Required string"
  let props ←
    match lookupRaw raw "props" with
    | none => Except.ok []
    | some (RawValue.strArr xs) => Except.ok xs
    | some _ => Except.error "props: Expected array of strings"
  let styling ←
    match lookupRaw raw "styling" with
    | none => Except.ok "tailwind"
    | some (RawValue.str s) =>
      if s = "tailwind" ∨ s = "css-modules" ∨ s = "styled-components" ∨ s = "emotion"
      then Except.ok s
      else Except.error "styling: Invalid enum value"
    | some _ => Except.error "styling: Expected string"
  let stream ←
    match lookupRaw raw "stream" with
    | none => Except.ok true
    | some (RawValue.boolV b) => Except.ok b
    | some _ => Except.error "stream: Expected boolean"
  Except.ok { component_name, theme, props, styling, stream }

/-- The `maxTokens` constant the component-generator handler passes to
the Generation Bridge (`component-generator.ts` line 166). -/
def componentGeneratorMaxTokens : Int := 3000

/-- The prompt template literal (`component-generator.ts` lines
123-164) as a pure function of the validated input. -/
def renderPrompt (args : ValidatedArgs) : String :=
  "\nYou are a senior Front-End engineer who specializes in React 18, TypeScript 5, and modern component architecture.\nYour task: **build a reusable "
  ++ args.component_name
  ++ " component**.\n\n──────────────────────\n🔖  Context\n──────────────────────\n• **Theme:** "
  ++ args.theme
  ++ "\n• **Styling system:** "
  ++ args.styling
  ++ " (use its idiomatic patterns)\n• **Required props:** "
  ++ (if args.props.length = 0
      then "None – create sensible defaults"
      else String.intercalate ", " (args.props.map fun p => "`" ++ p ++ "`"))
  ++ "\n\n──────────────────────\n📦  Deliverables\n──────────────────────\n1. **`src/"
  ++ args.component_name
  ++ ".tsx`** – complete functional component in TypeScript with strict typing.\n2. **Styling** – code matching the ***"
  ++ args.theme
  ++ "*** aesthetic, including dark-mode support if relevant.\n3. **`interface "
  ++ args.component_name
  ++ "Props`** – each prop documented with concise JSDoc.\n4. **Usage example** – minimal yet complete snippet (e.g., in *App.tsx*).\n5. **Accessibility** – semantic HTML, ARIA where required, full keyboard support.\n6. **Responsive design** – works from 320 px mobile to ≥1440 px desktop.\n7. **Best-practice notes** – memoization, composition, sensible defaults, etc.\n\n──────────────────────\n📝  Output format (exact format)\n──────────────────────\n```tsx\n// 1. Component\n...\n```\n\n⚠️ **No explanatory text** outside the code blocks.\n──────────────────────\nAdditional guidance:\n• Assume React ≥18 + TypeScript ≥5 with strict mode.\n• Prefer semantic HTML, adding ARIA only when necessary.\n• Keep total output under **250 lines**.\n• Begin when ready.\n"

/-- One `content` entry of the result envelope; `type` is always the
literal `"text"`, so only the text is modelled. -/
structure TextContent where
  text : String
deriving DecidableEq, Repr

/-- The `_meta` object of a successful result
(`component-generator.ts` lines 176-185). -/
structure ComponentMeta where
  component_name : String
  theme : String
  styling : String
  props_count : Nat
  streamed : Bool
  chunkCount : Nat
  performance_metrics : Option Metrics
  usage : Usage
deriving DecidableEq, Repr

/-- The tool result envelope (`componentGeneratorOutputSchema`):
`_meta` and `isError` are optional and absent on the branch that does
not set them. -/
structure ComponentResult where
  content : List TextContent
  meta : Option ComponentMeta
  isError : Option Bool
deriving DecidableEq, Repr

/-- `componentGeneratorHandler` (`component-generator.ts` lines
107-201). The source order is kept: `startSession` and `trackTool` run
before the `extra.signal.aborted` check; the `catch` block converts
any thrown error — the cancellation `Error` or a provider rejection —
into an `isError: true` envelope whose sole content entry is
`"Error generating component: " ++ message`, and never rethrows (the
function is total). `now0` is the `Date.now()` inside `startSession`;
`nowM1`/`nowM2` are the two samples inside `getMetrics`. -/
def componentGeneratorHandler (args : ValidatedArgs) (signalAborted : Bool)
    (sessionId : String) (now0 : Int) (provider : Provider) (nowM1 nowM2 : Int)
    (registry : Registry) : ComponentResult × Registry :=
  let registry1 := trackTool (startSession registry sessionId now0) sessionId
    "generate_component"
  if signalAborted then
    ({ content := [{ text := "Error generating component: Request was cancelled" }]
       meta := none
       isError := some true }, registry1)
  else
    match generateWithOptimalStreaming provider (renderPrompt args)
        componentGeneratorMaxTokens args.stream with
    | Except.error msg =>
      ({ content := [{ text := "Error generating component: " ++ msg }]
         meta := none
         isError := some true }, registry1)
    | Except.ok result =>
      ({ content := [{ text := result.text }]
         meta := some { component_name := args.component_name
                        theme := args.theme
                        styling := args.styling
                        props_count := args.props.length
                        streamed := result.streamed
                        chunkCount := result.chunkCount
                        performance_metrics := getMetrics registry1 sessionId nowM1 nowM2
                        usage := result.usage }
         isError := none }, registry1)

/-! ## HTTP facade (`src/http-server.ts`) -/

/-- A JSON value, for the HTTP facade's request/response bodies. -/
inductive Json where
  | str (s : String)
  | num (n : Int)
  | boolV (b : Bool)
  | nul
  | arr (elems : List Json)
  | obj (fields : List (String × Json))

/-- A parsed JSON-RPC request body as read by the POST branch of the
`/mcp` endpoint. -/
structure McpRequest where
  method : String
  id : Json
  params : Json

/-- An HTTP response: status code plus JSON body. -/
structure HttpResponse where
  status : Nat
  body : Json

/-- The fixed acknowledgement body the POST branch sends for any
method other than `tools/list` (`http-server.ts` lines 329-338). -/
def mcpStubResponseBody (method : String) (id : Json) : Json :=
  Json.obj [("jsonrpc", Json.str "2.0"), ("id", id),
            ("result", Json.obj
              [("message", Json.str "MCP request received"),
               ("method", Json.str method),
               ("note", Json.str "This is a simplified HTTP bridge implementation")])]

/-- The missing-credential error body (`http-server.ts` lines 307-315). -/
def mcpKeyErrorBody (id : Json) : Json :=
  Json.obj [("jsonrpc", Json.str "2.0"), ("id", id),
            ("error", Json.obj
              [("code", Json.num (-32602)),
               ("message", Json.str "V0_API_KEY is required for tool execution")])]

/-- The `handleListTools` success body (`http-server.ts` lines
101-147): a fixed six-entry tool list with id `"list_tools_" + Date.now()`. -/
def toolsListResponseBody (nowId : Int) : Json :=
  Json.obj [("jsonrpc", Json.str "2.0"),
            ("id", Json.str ("list_tools_" ++ toString nowId)),
            ("result", Json.obj [("tools", Json.arr
              [Json.obj [("name", Json.str "component_generator"),
                         ("description", Json.str "Generate React components with v0.dev AI integration")],
               Json.obj [("name", Json.str "accessibility_auditor"),
                         ("description", Json.str "Audit components for accessibility compliance")],
               Json.obj [("name", Json.str "shadcn_component_generator"),
                         ("description", Json.str "Generate shadcn/ui components")],
               Json.obj [("name", Json.str "tailwind_layout_generator"),
                         ("description", Json.str "Generate Tailwind CSS layouts")],
               Json.obj [("name", Json.str "css_theme_generator"),
                         ("description", Json.str "Generate CSS themes and design systems")],
               Json.obj [("name", Json.str "component_refactor"),
                         ("description", Json.str "Refactor and optimize React components")]])])]

/-- `String.prototype.startsWith`, embedded structurally over the
character lists. -/
def strStartsWith (s p : String) : Bool :=
  p.data.isPrefixOf s.data

/-- The POST branch of the `/mcp` endpoint (`http-server.ts` lines
294-353) for a successfully parsed body: reject `tools/call` without a
credential (the JS condition `mcpRequest.method && method.startsWith('tools/call')
&& !process.env.V0_API_KEY`), answer `tools/list` with the fixed list,
and answer every other method — including `tools/call` with the
credential present — with the fixed acknowledgement body. No tool
handler is invoked. -/
def handleMcpPost (hasApiKey : Bool) (nowId : Int) (req : McpRequest) : HttpResponse :=
  if !req.method.isEmpty && strStartsWith req.method "tools/call" && !hasApiKey then
    { status := 400, body := mcpKeyErrorBody req.id }
  else if req.method == "tools/list" then
    { status := 200, body := toolsListResponseBody nowId }
  else
    { status := 200, body := mcpStubResponseBody req.method req.id }

/-- Top-level field lookup in a JSON object. -/
def lookupField : Json → String → Option Json
  | Json.obj fields, k => (fields.find? fun kv => kv.1 == k).map (·.2)
  | _, _ => none

/-- Whether a JSON value is shaped like a `ToolInvocationResult`
envelope: an object carrying a `content` array of entries. -/
def hasContentField : Json → Bool
  | Json.obj fields => fields.any fun kv => kv.1 == "content"
  | _ => false

/-! ## Concrete sample values used by witnesses and counterexamples -/

def u0 : Usage := { totalTokens := 0 }

def u5 : Usage := { totalTokens := 5 }

/-- A concrete validated input (streaming on). -/
def argsA : ValidatedArgs :=
  { component_name := "Button", theme := "primary", props := [],
    styling := "tailwind", stream := true }

/-- A provider whose stream emits one fragment and succeeds. -/
def provOk : Provider :=
  { streamFragments := ["a"], streamError := none, streamUsage := u5,
    buffered := Except.ok { text := "t", usage := u5 } }

/-- A provider whose stream emits two fragments and then throws. -/
def provFail : Provider :=
  { streamFragments := ["frag1", "frag2"], streamError := some "provider boom",
    streamUsage := u0, buffered := Except.ok { text := "", usage := u0 } }

/-- The bridge result for `provOk` in streaming mode. -/
def genOkRes : GenerationResult :=
  { text := "a", usage := u5, streamed := true, chunkCount := 1 }

/-! ## Lemmas about the streaming loop -/

theorem foldl_consumeFragment_fullText (l : List String) :
    ∀ s : StreamState, (l.foldl consumeFragment s).fullText = s.fullText ++ String.join l := by
  induction l with
  | nil =>
    intro s
    show s.fullText = s.fullText ++ ""
    cases s.fullText with
    | mk d => show String.mk d = String.mk (d ++ []) ; simp
  | cons a t ih =>
    intro s
    rw [List.foldl_cons, ih]
    show (consumeFragment s a).fullText ++ String.join t
      = s.fullText ++ String.join (a :: t)
    have hj : String.join (a :: t) = a ++ String.join t := by
      apply String.ext
      simp [String.join_eq]
    rw [hj]
    show (s.fullText ++ a) ++ String.join t = s.fullText ++ (a ++ String.join t)
    apply String.ext
    simp

theorem foldl_consumeFragment_chunks (l : List String) :
    ∀ s : StreamState, (l.foldl consumeFragment s).chunks = s.chunks ++ l := by
  induction l with
  | nil => intro s; simp
  | cons a t ih =>
    intro s
    rw [List.foldl_cons, ih]
    simp [consumeFragment]

theorem foldl_consumeFragment_yields (l : List String) :
    ∀ s : StreamState,
      (l.foldl consumeFragment s).yields + s.chunks.length / 100
        = s.yields + (s.chunks.length + l.length) / 100 := by
  induction l with
  | nil => intro s; simp
  | cons a t ih =>
    intro s
    have hy : (consumeFragment s a).yields
        = if (s.chunks.length + 1) % 100 = 0 then s.yields + 1 else s.yields := by
      simp [consumeFragment]
    have hc : (consumeFragment s a).chunks.length = s.chunks.length + 1 := by
      simp [consumeFragment]
    have h := ih (consumeFragment s a)
    rw [hy, hc] at h
    rw [List.foldl_cons]
    by_cases hmod : (s.chunks.length + 1) % 100 = 0
    · rw [if_pos hmod] at h
      simp only [List.length_cons]
      omega
    · rw [if_neg hmod] at h
      simp only [List.length_cons]
      omega

theorem consumeStream_fullText (fragments : List String) :
    (consumeStream fragments).fullText = String.join fragments := by
  have h := foldl_consumeFragment_fullText fragments
    { fullText := "", chunks := [], yields := 0 }
  rw [consumeStream, h]
  apply String.ext
  simp

theorem consumeStream_chunks (fragments : List String) :
    (consumeStream fragments).chunks = fragments := by
  have h := foldl_consumeFragment_chunks fragments
    { fullText := "", chunks := [], yields := 0 }
  rw [consumeStream, h]
  simp

theorem consumeStream_yields (fragments : List String) :
    (consumeStream fragments).yields = fragments.length / 100 := by
  have h := foldl_consumeFragment_yields fragments
    { fullText := "", chunks := [], yields := 0 }
  simpa using h

/-- A successful streaming call fully characterised: the text is the
in-order concatenation, the chunk count the number of fragments. -/
theorem generate_streaming_ok (fragments : List String) (u : Usage)
    (b : Except String BufferedResult) (prompt : String) (maxTokens : Int) :
    generateWithOptimalStreaming ⟨fragments, none, u, b⟩ prompt maxTokens true
      = Except.ok { text := String.join fragments, usage := u,
                    streamed := true, chunkCount := fragments.length } := by
  simp only [generateWithOptimalStreaming, if_pos]
  rw [consumeStream_fullText, consumeStream_chunks]

/-- Inversion of a successful bridge call: the result is the streaming
aggregate (with `streamError = none`) or the buffered result. -/
theorem generate_ok_inv (p : Provider) (prompt : String) (mt : Int) (s : Bool)
    (r : GenerationResult)
    (h : generateWithOptimalStreaming p prompt mt s = Except.ok r) :
    (s = true ∧ p.streamError = none
      ∧ r = { text := String.join p.streamFragments, usage := p.streamUsage,
              streamed := true, chunkCount := p.streamFragments.length })
    ∨ (s = false ∧ ∃ br, p.buffered = Except.ok br
      ∧ r = { text := br.text, usage := br.usage, streamed := false, chunkCount := 0 }) := by
  cases s with
  | true =>
    left
    cases he : p.streamError with
    | some e =>
      rw [show generateWithOptimalStreaming p prompt mt true = Except.error e from by
        simp [generateWithOptimalStreaming, he]] at h
      exact absurd h (by simp)
    | none =>
      refine ⟨rfl, rfl, ?_⟩
      rw [show generateWithOptimalStreaming p prompt mt true
          = Except.ok { text := String.join p.streamFragments, usage := p.streamUsage,
                        streamed := true, chunkCount := p.streamFragments.length } from by
        simp [generateWithOptimalStreaming, he, consumeStream_fullText, consumeStream_chunks]] at h
      injection h with h1
      exact h1.symm
  | false =>
    right
    cases hb : p.buffered with
    | error e =>
      rw [show generateWithOptimalStreaming p prompt mt false = Except.error e from by
        simp [generateWithOptimalStreaming, hb]] at h
      exact absurd h (by simp)
    | ok br =>
      refine ⟨rfl, br, rfl, ?_⟩
      rw [show generateWithOptimalStreaming p prompt mt false
          = Except.ok { text := br.text, usage := br.usage,
                        streamed := false, chunkCount := 0 } from by
        simp [generateWithOptimalStreaming, hb]] at h
      injection h with h1
      exact h1.symm

/-! ## Lemmas about the session registry -/

theorem getSession_setSession_self (m : Registry) (k : String) (v : Session) :
    getSession (setSession m k v) k = some v := by
  induction m with
  | nil => simp [setSession, getSession]
  | cons head tail ih =>
    by_cases h : head.1 = k
    · cases head with
      | mk k' v' =>
        simp only at h
        simp [setSession, getSession, h]
    · cases head with
      | mk k' v' =>
        simp only at h
        simp [setSession, getSession, h, ih]

theorem trackTool_startSession (m : Registry) (sessionId toolName : String) (now : Int) :
    trackTool (startSession m sessionId now) sessionId toolName
      = setSession (setSession m sessionId { startTime := now, tools := [] })
          sessionId { startTime := now, tools := [toolName] } := by
  rw [trackTool, startSession, getSession_setSession_self]
  rfl

theorem getMetrics_fresh_session (m : Registry) (sessionId toolName : String)
    (now0 now1 now2 : Int) :
    getMetrics (trackTool (startSession m sessionId now0) sessionId toolName)
        sessionId now1 now2
      = some { duration := now1 - now0, toolsUsed := 1, tools := [toolName],
               averageToolTime := JSNum.num ((now2 - now0 : Int) : ℚ) } := by
  rw [trackTool_startSession, getMetrics, getSession_setSession_self]
  simp [jsDiv]

/-! ## Claims -/

/-- C1: for every finite fragment sequence emitted by the provider
stream, `generateWithOptimalStreaming` with `useStreaming = true`
returns text equal to the concatenation of the fragments in emission
order, regardless of how many periodic yield points fire (the yield
counter does not enter the accumulator). -/
theorem streaming_text_is_concat (fragments : List String) (u : Usage)
    (b : Except String BufferedResult) (prompt : String) (maxTokens : Int) :
    generateWithOptimalStreaming ⟨fragments, none, u, b⟩ prompt maxTokens true
      = Except.ok { text := String.join fragments, usage := u,
                    streamed := true, chunkCount := fragments.length } :=
  generate_streaming_ok fragments u b prompt maxTokens

/-- C2 counterexample: an empty provider stream in streaming mode
yields `chunkCount = 0` with `streamed = true`, so the claimed
equivalence `chunkCount = 0 ↔ streamed = false` fails at this result. -/
theorem chunkCount_zero_streamed_cex :
    generateWithOptimalStreaming ⟨[], none, u0, Except.ok ⟨"", u0⟩⟩ "p" 3000 true
        = Except.ok { text := "", usage := u0, streamed := true, chunkCount := 0 }
      ∧ ¬((0 : Nat) = 0 ↔ true = false) :=
  ⟨rfl, by decide⟩

/-- C2 corrected: for every result of either branch, `chunkCount = 0`
iff the result was not streamed or the provider emitted no fragments;
the original equivalence holds except for streaming an empty sequence,
where `chunkCount = 0` yet `streamed = true`. -/
theorem chunkCount_zero_iff (p : Provider) (prompt : String) (mt : Int) (s : Bool)
    (r : GenerationResult)
    (h : generateWithOptimalStreaming p prompt mt s = Except.ok r) :
    (r.chunkCount = 0 ↔ (r.streamed = false ∨ p.streamFragments = [])) := by
  rcases generate_ok_inv p prompt mt s r h with ⟨_, _, hr⟩ | ⟨_, br, _, hr⟩
  · subst hr
    simp [List.length_eq_zero]
  · subst hr
    simp

theorem chunkCount_zero_iff_witness :
    (generateWithOptimalStreaming provOk "p" 3000 true = Except.ok genOkRes)
    ∧ (genOkRes.chunkCount = 0 ↔ (genOkRes.streamed = false ∨ provOk.streamFragments = [])) :=
  ⟨rfl, chunkCount_zero_iff provOk "p" 3000 true genOkRes rfl⟩

/-- C3: whenever the Generation Bridge call rejects — in particular a
provider failure partway through streaming — the handler returns an
envelope with `isError = some true` whose content is exactly one text
entry holding the error message; the right-hand side depends only on
the message, never on the fragments accumulated before the failure,
and the handler is a total function (nothing is rethrown). -/
theorem handler_error_envelope (args : ValidatedArgs) (sessionId : String) (now0 : Int)
    (provider : Provider) (nowM1 nowM2 : Int) (registry : Registry) (msg : String)
    (h : generateWithOptimalStreaming provider (renderPrompt args)
        componentGeneratorMaxTokens args.stream = Except.error msg) :
    (componentGeneratorHandler args false sessionId now0 provider nowM1 nowM2 registry).fst
        = { content := [{ text := "Error generating component: " ++ msg }],
            meta := none, isError := some true }
    ∧ (componentGeneratorHandler args false sessionId now0 provider
        nowM1 nowM2 registry).fst.content.length = 1 := by
  have hh : (componentGeneratorHandler args false sessionId now0 provider
      nowM1 nowM2 registry).fst
      = { content := [{ text := "Error generating component: " ++ msg }],
          meta := none, isError := some true } := by
    unfold componentGeneratorHandler
    rw [h]
    rfl
  exact ⟨hh, by rw [hh]; rfl⟩

theorem handler_error_envelope_witness :
    (generateWithOptimalStreaming provFail (renderPrompt argsA)
        componentGeneratorMaxTokens argsA.stream = Except.error "provider boom")
    ∧ ((componentGeneratorHandler argsA false "sid" 0 provFail 0 0 []).fst
          = { content := [{ text := "Error generating component: " ++ "provider boom" }],
              meta := none, isError := some true }
        ∧ (componentGeneratorHandler argsA false "sid" 0 provFail 0 0 []).fst.content.length = 1) :=
  ⟨rfl, handler_error_envelope argsA "sid" 0 provFail 0 0 [] "provider boom" rfl⟩

/-- C4: the yield hook fires on consuming a fragment exactly when the
new chunk count is divisible by 100, hence `⌊n/100⌋` times for an
n-fragment stream; for a 250-fragment stream it fires exactly twice
and the returned `chunkCount` is 250. -/
theorem yield_every_100 :
    (∀ (s : StreamState) (f : String),
        (consumeFragment s f).yields
          = if (s.chunks.length + 1) % 100 = 0 then s.yields + 1 else s.yields)
    ∧ (∀ fragments : List String, (consumeStream fragments).yields = fragments.length / 100)
    ∧ (consumeStream (List.replicate 250 "x")).yields = 2
    ∧ (∀ (u : Usage) (b : Except String BufferedResult) (prompt : String) (mt : Int),
        generateWithOptimalStreaming ⟨List.replicate 250 "x", none, u, b⟩ prompt mt true
          = Except.ok { text := String.join (List.replicate 250 "x"), usage := u,
                        streamed := true, chunkCount := 250 }) := by
  refine ⟨?_, consumeStream_yields, ?_, ?_⟩
  · intro s f
    simp [consumeFragment]
  · rw [consumeStream_yields, List.length_replicate]
  · intro u b prompt mt
    have h := generate_streaming_ok (List.replicate 250 "x") u b prompt mt
    rw [List.length_replicate] at h
    exact h

/-- C5 corrected: with the cancellation signal already aborted the
handler fails immediately with the cancellation envelope and never
consults the provider (the result is independent of it), but the
session-metrics registry is NOT left unchanged: a fresh session with
one tracked tool is inserted before the abort check
(`component-generator.ts` lines 114-116 precede line 119). -/
theorem cancelled_no_provider_call (args : ValidatedArgs) (sessionId : String) (now0 : Int)
    (p q : Provider) (n1 n2 n1' n2' : Int) (m : Registry) :
    componentGeneratorHandler args true sessionId now0 p n1 n2 m
      = ({ content := [{ text := "Error generating component: Request was cancelled" }],
           meta := none, isError := some true },
         trackTool (startSession m sessionId now0) sessionId "generate_component")
    ∧ componentGeneratorHandler args true sessionId now0 p n1 n2 m
        = componentGeneratorHandler args true sessionId now0 q n1' n2' m :=
  ⟨rfl, rfl⟩

/-- C5 counterexample: starting from the empty registry with the
signal aborted, the registry after the call holds a new session —
the claimed "session-metrics registry is left unchanged" fails. -/
theorem cancelled_registry_cex :
    (componentGeneratorHandler argsA true "sid" 0 provOk 0 0 []).snd
        = [("sid", { startTime := 0, tools := ["generate_component"] })]
    ∧ ([("sid", ({ startTime := 0, tools := ["generate_component"] } : Session))] : Registry)
        ≠ ([] : Registry) :=
  ⟨rfl, by decide⟩

/-- C6 corrected: `getMetrics` on a session with zero tracked tools
returns normally with `toolsUsed = 0` and a well-defined
`averageToolTime` — but the value is `Infinity` only when the elapsed
time is positive; when the second `Date.now()` sample equals the start
time the division `0 / 0` yields `NaN` (not `Infinity`, and not
`undefined`). -/
theorem getMetrics_zero_tools (m : Registry) (sessionId : String) (s : Session)
    (n1 n2 : Int)
    (h1 : getSession m sessionId = some s) (h2 : s.tools = []) :
    getMetrics m sessionId n1 n2
        = some { duration := n1 - s.startTime, toolsUsed := 0, tools := [],
                 averageToolTime := jsDiv (n2 - s.startTime) 0 }
    ∧ (s.startTime < n2 → jsDiv (n2 - s.startTime) 0 = JSNum.posInf)
    ∧ (n2 = s.startTime → jsDiv (n2 - s.startTime) 0 = JSNum.nan) := by
  refine ⟨?_, ?_, ?_⟩
  · simp [getMetrics, h1, h2]
  · intro h
    have hpos : 0 < n2 - s.startTime := by omega
    simp [jsDiv, hpos]
  · intro h
    simp [jsDiv, h]

theorem getMetrics_zero_tools_witness :
    (getSession [("s", ({ startTime := 0, tools := [] } : Session))] "s"
        = some { startTime := 0, tools := [] })
    ∧ (getMetrics [("s", { startTime := 0, tools := [] })] "s" 5 5
          = some { duration := 5 - 0, toolsUsed := 0, tools := [],
                   averageToolTime := jsDiv (5 - 0) 0 }
        ∧ ((0 : Int) < 5 → jsDiv ((5 : Int) - 0) 0 = JSNum.posInf)
        ∧ ((5 : Int) = 0 → jsDiv ((5 : Int) - 0) 0 = JSNum.nan)) :=
  ⟨rfl, getMetrics_zero_tools [("s", { startTime := 0, tools := [] })] "s"
    { startTime := 0, tools := [] } 5 5 rfl rfl⟩

/-- C6 counterexample: when the second time sample equals the session
start the code computes `0 / 0 = NaN`, which is neither `Infinity` nor
an absent value (the call still returns `some`). -/
theorem getMetrics_nan_cex :
    getMetrics [("s", { startTime := 0, tools := [] })] "s" 0 0
        = some { duration := 0, toolsUsed := 0, tools := [],
                 averageToolTime := JSNum.nan }
    ∧ JSNum.nan ≠ JSNum.posInf
    ∧ (getMetrics [("s", { startTime := 0, tools := [] })] "s" 0 0).isSome = true :=
  ⟨rfl, by decide, rfl⟩

/-- C7 counterexample: an input carrying `maxOutputTokens = 0` is NOT
rejected by validation — zod strips the unknown key and the parse
succeeds — so "validation rejects the input" fails. -/
theorem validation_accepts_maxOutputTokens_cex :
    parseComponentGeneratorInput
        [("component_name", RawValue.str "Button"), ("theme", RawValue.str "primary"),
         ("maxOutputTokens", RawValue.intV 0)]
      = Except.ok { component_name := "Button", theme := "primary", props := [],
                    styling := "tailwind", stream := true } := rfl

/-- C7 corrected: validation accepts inputs carrying a non-positive
`maxOutputTokens` (the schema has no such field, so zod strips it),
yet the Generation Bridge is still never called with a non-positive
`maxTokens`: the handler always passes the positive constant 3000. -/
theorem bridge_maxTokens_positive :
    0 < componentGeneratorMaxTokens
    ∧ componentGeneratorMaxTokens = 3000
    ∧ parseComponentGeneratorInput
        [("component_name", RawValue.str "Button"), ("theme", RawValue.str "primary"),
         ("maxOutputTokens", RawValue.intV (-5))]
        = Except.ok { component_name := "Button", theme := "primary", props := [],
                      styling := "tailwind", stream := true } :=
  ⟨by norm_num [componentGeneratorMaxTokens], rfl, rfl⟩

/-- C8: rendering the prompt is a pure deterministic function of the
validated input: it depends only on the schema fields (the context —
session, time, registry, provider — never enters), so two renderings
from identical validated input are byte-identical; the input cannot be
mutated since `renderPrompt` is a function on an immutable value. -/
theorem render_deterministic (a b : ValidatedArgs)
    (h1 : a.component_name = b.component_name) (h2 : a.theme = b.theme)
    (h3 : a.props = b.props) (h4 : a.styling = b.styling) :
    renderPrompt a = renderPrompt b := by
  simp only [renderPrompt, h1, h2, h3, h4]

theorem render_deterministic_witness :
    ((⟨"Button", "primary", ["label"], "tailwind", true⟩ : ValidatedArgs).component_name
        = (⟨"Button", "primary", ["label"], "tailwind", false⟩ : ValidatedArgs).component_name)
    ∧ renderPrompt ⟨"Button", "primary", ["label"], "tailwind", true⟩
        = renderPrompt ⟨"Button", "primary", ["label"], "tailwind", false⟩ :=
  ⟨rfl, render_deterministic _ _ rfl rfl rfl rfl⟩

/-- C9 counterexample: a `tools/call` POST with the credential present
is answered with the fixed acknowledgement body, whose `result` object
has no `content` field — it is not the invoked tool's
`ToolInvocationResult` (no tool is invoked at all). -/
theorem http_stub_response_cex :
    handleMcpPost true 7 { method := "tools/call", id := Json.num 1,
                           params := Json.obj [("name", Json.str "generate_component"),
                                               ("arguments", Json.obj [])] }
        = { status := 200, body := mcpStubResponseBody "tools/call" (Json.num 1) }
    ∧ hasContentField (Json.obj [("message", Json.str "MCP request received"),
                                 ("method", Json.str "tools/call"),
                                 ("note", Json.str "This is a simplified HTTP bridge implementation")])
        = false :=
  ⟨rfl, rfl⟩

/-- C9 corrected: for every `tools/call` POST with the credential
present, the HTTP facade returns 200 with the fixed acknowledgement
body `{jsonrpc, id, result: {message, method, note}}` — independent of
the tool named in `params` — and that body carries no
`ToolInvocationResult` envelope (no `content` entries). -/
theorem http_tools_call_stub (method : String) (id params : Json) (nowId : Int)
    (_h1 : strStartsWith method "tools/call" = true)
    (h2 : (method == "tools/list") = false) :
    handleMcpPost true nowId { method := method, id := id, params := params }
        = { status := 200, body := mcpStubResponseBody method id }
    ∧ hasContentField (mcpStubResponseBody method id) = false
    ∧ lookupField (mcpStubResponseBody method id) "result"
        = some (Json.obj [("message", Json.str "MCP request received"),
                          ("method", Json.str method),
                          ("note", Json.str "This is a simplified HTTP bridge implementation")]) := by
  refine ⟨?_, rfl, rfl⟩
  simp [handleMcpPost, h2]

theorem http_tools_call_stub_witness :
    (strStartsWith "tools/call" "tools/call" = true)
    ∧ (("tools/call" == "tools/list") = false)
    ∧ (handleMcpPost true 0 { method := "tools/call", id := Json.num 2, params := Json.nul }
          = { status := 200, body := mcpStubResponseBody "tools/call" (Json.num 2) }
        ∧ hasContentField (mcpStubResponseBody "tools/call" (Json.num 2)) = false
        ∧ lookupField (mcpStubResponseBody "tools/call" (Json.num 2)) "result"
            = some (Json.obj [("message", Json.str "MCP request received"),
                              ("method", Json.str "tools/call"),
                              ("note", Json.str "This is a simplified HTTP bridge implementation")])) :=
  ⟨rfl, rfl, http_tools_call_stub "tools/call" (Json.num 2) Json.nul 0 rfl rfl⟩

/-- C10 corrected: every successful invocation embeds metrics with
`toolsUsed = 1` and `tools = ["generate_component"]` (the fresh session
is reset and tracked exactly once, regardless of the prior registry),
and `averageToolTime` is the elapsed time at the SECOND `Date.now()`
sample inside `getMetrics` divided by 1 — equal to `duration` exactly
when the two samples coincide, not always. -/
theorem metrics_single_tool (args : ValidatedArgs) (sessionId : String) (now0 : Int)
    (p : Provider) (n1 n2 : Int) (m : Registry) (r : GenerationResult)
    (h : generateWithOptimalStreaming p (renderPrompt args)
        componentGeneratorMaxTokens args.stream = Except.ok r) :
    (componentGeneratorHandler args false sessionId now0 p n1 n2 m).fst.meta
        = some { component_name := args.component_name, theme := args.theme,
                 styling := args.styling, props_count := args.props.length,
                 streamed := r.streamed, chunkCount := r.chunkCount,
                 performance_metrics := some { duration := n1 - now0, toolsUsed := 1,
                                               tools := ["generate_component"],
                                               averageToolTime := JSNum.num ((n2 - now0 : Int) : ℚ) },
                 usage := r.usage }
    ∧ (n1 = n2 → JSNum.num ((n2 - now0 : Int) : ℚ) = JSNum.num ((n1 - now0 : Int) : ℚ)) := by
  constructor
  · simp [componentGeneratorHandler, h, getMetrics_fresh_session]
  · intro hEq
    rw [hEq]

theorem metrics_single_tool_witness :
    (generateWithOptimalStreaming provOk (renderPrompt argsA)
        componentGeneratorMaxTokens argsA.stream = Except.ok genOkRes)
    ∧ ((componentGeneratorHandler argsA false "sid" 0 provOk 7 7 []).fst.meta
          = some { component_name := argsA.component_name, theme := argsA.theme,
                   styling := argsA.styling, props_count := argsA.props.length,
                   streamed := genOkRes.streamed, chunkCount := genOkRes.chunkCount,
                   performance_metrics := some { duration := 7 - 0, toolsUsed := 1,
                                                 tools := ["generate_component"],
                                                 averageToolTime := JSNum.num ((7 - 0 : Int) : ℚ) },
                   usage := genOkRes.usage }
        ∧ ((7 : Int) = 7 → JSNum.num (((7 : Int) - 0 : Int) : ℚ)
              = JSNum.num (((7 : Int) - 0 : Int) : ℚ))) :=
  ⟨rfl, metrics_single_tool argsA "sid" 0 provOk 7 7 [] genOkRes rfl⟩

/-- C10 counterexample: with the two `Date.now()` samples in
`getMetrics` one millisecond apart (1000 and 1001), the embedded
metrics have `duration = 1000` but `averageToolTime = 1001 / 1 = 1001`
— the claimed `averageToolTime = duration` fails. -/
theorem metrics_avg_duration_cex :
    ((componentGeneratorHandler argsA false "sid" 0 provOk 1000 1001 []).fst.meta.map
        fun md => md.performance_metrics)
        = some (some { duration := 1000, toolsUsed := 1, tools := ["generate_component"],
                       averageToolTime := jsDiv (1001 - 0) 1 })
    ∧ jsDiv (1001 - 0) 1 = JSNum.num ((1001 : Int) : ℚ)
    ∧ JSNum.num ((1001 : Int) : ℚ) ≠ JSNum.num ((1000 : Int) : ℚ) := by
  refine ⟨rfl, ?_, ?_⟩
  · norm_num [jsDiv]
  · simp only [ne_eq, JSNum.num.injEq]
    norm_num

end V0Mcp
